import Mathlib

set_option maxRecDepth 8000

/-!
Verification development for the player-statistics engine of the
spiffo-pz-bot repository (`src/analytics/log_parser.py` and
`src/analytics/player_stats.py`).

The Python code is shallowly embedded as executable Lean definitions:

* `DateTime` models naive `datetime` values (whole seconds: the log
  timestamp parser truncates fractional seconds before `strptime`).
* The nine regular expressions of `LogParser.PATTERNS` are translated,
  one scanning function per pattern, over `List Char`, preserving the
  `re.IGNORECASE` and `re.search` semantics the code relies on
  (leftmost match; lazy `.*?` tried at nearer positions first; greedy
  character classes followed by a literal that the class cannot match
  keep only the maximal run).
* `applyEvent` is the per-event body of `LogParser.parse_logs`'s
  dispatch, `parse_logs` the full fold over log lines.
* `mergeRecords` / `update_stats` model `PlayerStatsTracker.update_from_logs`,
  `save_stats` models `PlayerStatsTracker._save_stats` together with
  `json.dump` (whose `TypeError` on an unconverted `datetime` is `none`).
* `calculate_playstyle_profile`, `get_leaderboards` and
  `format_leaderboard` model the analytics layer; `datetime.now()` is
  passed in explicitly as a `now : DateTime` argument.
-/

/-- Naive calendar timestamp, as produced by `datetime.strptime` in
`LogParser.parse_logs`. Fractional seconds never appear: the parser splits
the captured text at the first dot before parsing. -/
structure DateTime where
  year : Nat
  month : Nat
  day : Nat
  hour : Nat
  minute : Nat
  second : Nat
deriving DecidableEq, Repr

def isLeap (y : Nat) : Bool := (y % 4 == 0 && y % 100 != 0) || y % 400 == 0

/-- Days in the months preceding month `m` (1-based) of a year. -/
def cumMonthDays (leap : Bool) (m : Nat) : Nat :=
  List.getD [0, 31, 59, 90, 120, 151, 181, 212, 243, 273, 304, 334] (m - 1) 334
    + (if leap && decide (m > 2) then 1 else 0)

def daysInMonth (y m : Nat) : Nat :=
  if m = 2 then (if isLeap y then 29 else 28)
  else List.getD [31, 28, 31, 30, 31, 30, 31, 31, 30, 31, 30, 31] (m - 1) 31

/-- Seconds since 0001-01-01 00:00:00. Models `datetime` ordering and
subtraction (`total_seconds()` of a difference of whole-second datetimes). -/
def DateTime.toSecs (t : DateTime) : Nat :=
  let y := t.year - 1
  let days := 365 * y + (y / 4 - y / 100 + y / 400)
    + cumMonthDays (isLeap t.year) t.month + (t.day - 1)
  days * 86400 + t.hour * 3600 + t.minute * 60 + t.second

def natOfDigits (l : List Char) : Nat :=
  l.foldl (fun n c => n * 10 + (c.toNat - 48)) 0

/-- Parse a 1–2 digit number with an inclusive value range, mirroring the
regexes CPython `strptime` builds for `%d` / `%m` / `%H` / `%M` / `%S`
(one or two digits, value constrained; a longer digit run fails because the
following literal separator can never be a digit). -/
def parseNum2 (lo hi : Nat) (s : List Char) : Option (Nat × List Char) :=
  let ds := s.takeWhile Char.isDigit
  if (ds.length = 1 || ds.length = 2)
      && decide (lo ≤ natOfDigits ds) && decide (natOfDigits ds ≤ hi) then
    some (natOfDigits ds, s.dropWhile Char.isDigit)
  else none

/-- `%y`: exactly two digits. -/
def parseNum2Exact (s : List Char) : Option (Nat × List Char) :=
  let ds := s.takeWhile Char.isDigit
  if ds.length = 2 then some (natOfDigits ds, s.dropWhile Char.isDigit) else none

/-- `%Y`: exactly four digits. -/
def parseNum4Exact (s : List Char) : Option (Nat × List Char) :=
  let ds := s.takeWhile Char.isDigit
  if ds.length = 4 then some (natOfDigits ds, s.dropWhile Char.isDigit) else none

def expectChar (c : Char) (s : List Char) : Option (List Char) :=
  match s with
  | x :: rest => if x = c then some rest else none
  | [] => none

/-- A whitespace character in a `strptime` format matches one or more
whitespace characters. -/
def expectWs (s : List Char) : Option (List Char) :=
  let ws := s.takeWhile Char.isWhitespace
  if ws = [] then none else some (s.dropWhile Char.isWhitespace)

/-- The `datetime` constructor validates the field ranges; `strptime`'s
`ValueError` on an invalid date is `none`. Month and time ranges were
already enforced by the field parsers. -/
def mkDateTime (y mo d h mi se : Nat) : Option DateTime :=
  if decide (1 ≤ y) && decide (y ≤ 9999) && decide (1 ≤ d) && decide (d ≤ daysInMonth y mo) then
    some ⟨y, mo, d, h, mi, se⟩
  else none

/-- `datetime.strptime(s, "%d-%m-%y %H:%M:%S")`. `%y` maps 00–68 to
2000–2068 and 69–99 to 1969–1999. -/
def parseFormatDMY (s : List Char) : Option DateTime := do
  let (d, s) ← parseNum2 1 31 s
  let s ← expectChar '-' s
  let (mo, s) ← parseNum2 1 12 s
  let s ← expectChar '-' s
  let (yy, s) ← parseNum2Exact s
  let s ← expectWs s
  let (h, s) ← parseNum2 0 23 s
  let s ← expectChar ':' s
  let (mi, s) ← parseNum2 0 59 s
  let s ← expectChar ':' s
  let (se, s) ← parseNum2 0 59 s
  if s = [] then mkDateTime (if yy ≤ 68 then 2000 + yy else 1900 + yy) mo d h mi se
  else none

/-- `datetime.strptime(s, "%Y-%m-%d %H:%M:%S")`. -/
def parseFormatYMD (s : List Char) : Option DateTime := do
  let (y, s) ← parseNum4Exact s
  let s ← expectChar '-' s
  let (mo, s) ← parseNum2 1 12 s
  let s ← expectChar '-' s
  let (d, s) ← parseNum2 1 31 s
  let s ← expectWs s
  let (h, s) ← parseNum2 0 23 s
  let s ← expectChar ':' s
  let (mi, s) ← parseNum2 0 59 s
  let s ← expectChar ':' s
  let (se, s) ← parseNum2 0 59 s
  if s = [] then mkDateTime y mo d h mi se else none

/-- Timestamp resolution in `parse_logs`: first try `%d-%m-%y %H:%M:%S` on
`timestamp_str.split('.')[0]`, then `%Y-%m-%d %H:%M:%S` on the full text;
both failing yields `None` (not an error). -/
def parseTimestampStr (s : String) : Option DateTime :=
  match parseFormatDMY (s.data.takeWhile (fun c => c ≠ '.')) with
  | some t => some t
  | none => parseFormatYMD s.data

def parseTimestamp : Option String → Option DateTime
  | none => none
  | some s => parseTimestampStr s

/-! ### The recognizers of `LogParser.PATTERNS` -/

def ciEq (a b : Char) : Bool := a.toLower == b.toLower

/-- Case-insensitive literal match at the head; returns the remainder. -/
def litMatch : List Char → List Char → Option (List Char)
  | [], s => some s
  | _ :: _, [] => none
  | p :: ps, c :: cs => if ciEq p c then litMatch ps cs else none

/-- All remainders after an occurrence of the literal, nearest first:
the backtracking order of a lazy `.*?` followed by the literal. -/
def findLitCands (lit : List Char) : List Char → List (List Char)
  | [] => (litMatch lit []).toList
  | c :: rest => (litMatch lit (c :: rest)).toList ++ findLitCands lit rest

/-- The character class `[\d\-: \.]` of the timestamp capture. -/
def tsClass (c : Char) : Bool :=
  c.isDigit || c == '-' || c == ':' || c == ' ' || c == '.'

/-- Candidates for `\[(?P<timestamp>[\d\-: \.]+)\]`, leftmost first: at
each `[`, the greedy class run must be nonempty and be followed by `]`
(shorter runs always end before a class character, so only the maximal
run can be followed by `]`). -/
def tsBracketCands : List Char → List (String × List Char)
  | [] => []
  | c :: rest =>
    (if c = '[' then
      match rest.takeWhile tsClass, rest.dropWhile tsClass with
      | _ :: _, ']' :: after => [((rest.takeWhile tsClass).asString, after)]
      | _, _ => []
     else []) ++ tsBracketCands rest

/-- `\w` under `re.IGNORECASE` on ASCII log text. -/
def wordChar (c : Char) : Bool := c.isAlphanum || c == '_'

/-- Candidates for `.*?(?P<username>\w+)` followed by a literal the class
cannot match (such as `" killed a zombie"`): at each word character, the
greedy run to the next non-word character must be followed by the literal. -/
def wordThenLitCands (lit : List Char) : List Char → List (String × List Char)
  | [] => []
  | c :: rest =>
    (if wordChar c then
      match litMatch lit (rest.dropWhile wordChar) with
      | some rem => [((c :: rest.takeWhile wordChar).asString, rem)]
      | none => []
     else []) ++ wordThenLitCands lit rest

/-- `player_connect`:
`\[(?P<timestamp>[\d\-: \.]+)\].*?ConnectionManager:\s+\[fully-connected\].*?username="(?P<username>[^"]+)"`.
Returns `(timestamp text, username)`. -/
def matchConnect (s : List Char) : Option (String × String) :=
  (tsBracketCands s).findSome? fun p =>
    (findLitCands "connectionmanager:".data p.2).findSome? fun r2 =>
      if r2.takeWhile Char.isWhitespace = [] then none
      else
        match litMatch "[fully-connected]".data (r2.dropWhile Char.isWhitespace) with
        | none => none
        | some r4 =>
          (findLitCands "username=\"".data r4).findSome? fun r5 =>
            match r5.takeWhile (fun c => c ≠ '"'), r5.dropWhile (fun c => c ≠ '"') with
            | u :: us, '"' :: _ => some (p.1, (u :: us).asString)
            | _, _ => none

/-- `player_disconnect`: `Disconnected player "(?P<username>[^"]+)"`.
The pattern has no timestamp group. -/
def matchDisconnect (s : List Char) : Option String :=
  (findLitCands "disconnected player \"".data s).findSome? fun r =>
    match r.takeWhile (fun c => c ≠ '"'), r.dropWhile (fun c => c ≠ '"') with
    | u :: us, '"' :: _ => some ((u :: us).asString)
    | _, _ => none

/-- `zombie_killed`: `\[(?P<timestamp>[\d\-: \.]+)\].*?(?P<username>\w+) killed a zombie`. -/
def matchZombie (s : List Char) : Option (String × String) :=
  (tsBracketCands s).findSome? fun p =>
    (wordThenLitCands " killed a zombie".data p.2).findSome? fun q => some (p.1, q.1)

/-- `player_death`: `\[(?P<timestamp>[\d\-: \.]+)\].*?(?P<username>\w+) died`. -/
def matchDeath (s : List Char) : Option (String × String) :=
  (tsBracketCands s).findSome? fun p =>
    (wordThenLitCands " died".data p.2).findSome? fun q => some (p.1, q.1)

/-- `distance_traveled`:
`\[...\].*?(?P<username>\w+) traveled (?P<distance>\d+) tiles`.
Returns `(timestamp text, username, distance)`. -/
def matchDistance (s : List Char) : Option (String × String × Nat) :=
  (tsBracketCands s).findSome? fun p =>
    (wordThenLitCands " traveled ".data p.2).findSome? fun q =>
      match q.2.takeWhile Char.isDigit, q.2.dropWhile Char.isDigit with
      | [], _ => none
      | d :: ds, r =>
        match litMatch " tiles".data r with
        | some _ => some (p.1, q.1, natOfDigits (d :: ds))
        | none => none

/-- `level_up`:
`\[...\].*?(?P<username>\w+) reached level (?P<level>\d+) in (?P<skill>\w+)`.
Returns `(timestamp text, username, level, skill)`. -/
def matchLevel (s : List Char) : Option (String × String × Nat × String) :=
  (tsBracketCands s).findSome? fun p =>
    (wordThenLitCands " reached level ".data p.2).findSome? fun q =>
      match q.2.takeWhile Char.isDigit, q.2.dropWhile Char.isDigit with
      | [], _ => none
      | d :: ds, r =>
        match litMatch " in ".data r with
        | none => none
        | some r2 =>
          match r2.takeWhile wordChar with
          | [] => none
          | k :: ks => some (p.1, q.1, natOfDigits (d :: ds), (k :: ks).asString)

/-- `item_crafted`: `\[...\].*?(?P<username>\w+) crafted (?P<item>[\w\s]+)`.
Returns `(timestamp text, username, item)`. -/
def matchItem (s : List Char) : Option (String × String × String) :=
  (tsBracketCands s).findSome? fun p =>
    (wordThenLitCands " crafted ".data p.2).findSome? fun q =>
      match q.2.takeWhile (fun c => wordChar c || c.isWhitespace) with
      | [] => none
      | i :: is' => some (p.1, q.1, (i :: is').asString)

/-- `vehicle_entered`: `\[...\].*?(?P<username>\w+) entered vehicle`. -/
def matchVehicle (s : List Char) : Option (String × String) :=
  (tsBracketCands s).findSome? fun p =>
    (wordThenLitCands " entered vehicle".data p.2).findSome? fun q => some (p.1, q.1)

/-- `building_placed`: `\[...\].*?(?P<username>\w+) placed (?P<building>[\w\s]+)`. -/
def matchBuilding (s : List Char) : Option (String × String × String) :=
  (tsBracketCands s).findSome? fun p =>
    (wordThenLitCands " placed ".data p.2).findSome? fun q =>
      match q.2.takeWhile (fun c => wordChar c || c.isWhitespace) with
      | [] => none
      | b :: bs => some (p.1, q.1, (b :: bs).asString)

/-- `LogParser._extract_death_cause`: case-insensitive substring scan over
the whole line against a fixed ordered keyword table; first match wins. -/
def containsKw (kw : String) (line : List Char) : Bool :=
  !(findLitCands kw.data line).isEmpty

def extract_death_cause (line : List Char) : String :=
  if containsKw "zombie" line then "Zombie"
  else if containsKw "starvation" line then "Starvation"
  else if containsKw "dehydration" line then "Dehydration"
  else if containsKw "bleeding" line then "Blood Loss"
  else if containsKw "infection" line then "Infection"
  else if containsKw "fall" line then "Fall Damage"
  else if containsKw "fire" line then "Fire"
  else if containsKw "vehicle" line then "Vehicle Accident"
  else "Unknown"

/-! ### The per-player record of `parse_logs` -/

/-- One completed life, appended by the death branch of `parse_logs`.
The source dict key `end` is called `endTime` here (`end` is reserved). -/
structure LifeSegment where
  start : DateTime
  endTime : Option DateTime
  duration : Int
  zombies_killed : Nat
  distance_traveled : Nat
  items_crafted : Nat
  buildings_placed : Nat
  death_cause : String
deriving DecidableEq, Repr

structure LevelUp where
  skill : String
  level : Nat
  timestamp : Option DateTime
deriving DecidableEq, Repr

/-- The per-username statistics dict built by `parse_logs` (the
`defaultdict` literal at its top). Session durations are whole seconds
(`total_seconds()` of whole-second datetimes), stored as `Int`. -/
structure PlayerRecord where
  lifetime_zombies_killed : Nat
  lifetime_distance_traveled : Nat
  lifetime_items_crafted : List String
  lifetime_buildings_placed : List String
  current_life_zombies_killed : Nat
  current_life_distance_traveled : Nat
  current_life_items_crafted : List String
  current_life_buildings_placed : List String
  current_life_start : Option DateTime
  connections : Nat
  disconnections : Nat
  zombies_killed : Nat
  deaths : Nat
  death_causes : List String
  death_timestamps : List (Option DateTime)
  distance_traveled : Nat
  level_ups : List LevelUp
  items_crafted : List String
  vehicles_entered : Nat
  buildings_placed : List String
  first_seen : Option DateTime
  last_seen : Option DateTime
  last_death : Option DateTime
  session_times : List Int
  lives : List LifeSegment
deriving DecidableEq, Repr

/-- The `defaultdict` default value. -/
def defaultRecord : PlayerRecord where
  lifetime_zombies_killed := 0
  lifetime_distance_traveled := 0
  lifetime_items_crafted := []
  lifetime_buildings_placed := []
  current_life_zombies_killed := 0
  current_life_distance_traveled := 0
  current_life_items_crafted := []
  current_life_buildings_placed := []
  current_life_start := none
  connections := 0
  disconnections := 0
  zombies_killed := 0
  deaths := 0
  death_causes := []
  death_timestamps := []
  distance_traveled := 0
  level_ups := []
  items_crafted := []
  vehicles_entered := 0
  buildings_placed := []
  first_seen := none
  last_seen := none
  last_death := none
  session_times := []
  lives := []

/-- A typed event: one recognizer match, with the timestamp already
resolved and the death cause already extracted from the line. -/
inductive LogEvent where
  | connect (timestamp : Option DateTime)
  | disconnect (timestamp : Option DateTime)
  | zombieKilled (timestamp : Option DateTime)
  | death (timestamp : Option DateTime) (cause : String)
  | distanceTraveled (timestamp : Option DateTime) (distance : Nat)
  | levelUp (timestamp : Option DateTime) (skill : String) (level : Nat)
  | itemCrafted (timestamp : Option DateTime) (item : String)
  | vehicleEntered (timestamp : Option DateTime)
  | buildingPlaced (timestamp : Option DateTime) (building : String)
deriving DecidableEq, Repr

def LogEvent.timestamp : LogEvent → Option DateTime
  | .connect ts => ts
  | .disconnect ts => ts
  | .zombieKilled ts => ts
  | .death ts _ => ts
  | .distanceTraveled ts _ => ts
  | .levelUp ts _ _ => ts
  | .itemCrafted ts _ => ts
  | .vehicleEntered ts => ts
  | .buildingPlaced ts _ => ts

/-- `life_duration` in the death branch: `(timestamp - current_life_start)
.total_seconds() if timestamp else 0`. -/
def lifeDuration (ts : Option DateTime) (t0 : DateTime) : Int :=
  match ts with
  | some t => (t.toSecs : Int) - (t0.toSecs : Int)
  | none => 0

/-- The first/last-seen update done for every event carrying a resolvable
timestamp, before the event-specific handling. -/
def updateSeen (r : PlayerRecord) (ts : Option DateTime) : PlayerRecord :=
  match ts with
  | none => r
  | some t =>
    { r with
      first_seen := match r.first_seen with | none => some t | some s => some s
      last_seen := some t }

/-- The event dispatch of `LogParser.parse_logs` for a single player.
`pending` is that username's slot in the `session_starts` dict: `none`
when the key is absent, `some v` when present with value `v` (which is
itself an optional timestamp, since a connect records whatever timestamp
it resolved, possibly `None`).

In the disconnect branch the source computes a session duration only when
the username has a pending entry and the disconnect event resolved a
timestamp. (When the pending entry's stored value is `None` and a
timestamp is present the source would raise; `parse_logs` cannot reach
that state because the disconnect recognizer never captures a timestamp,
and this model leaves the record unchanged there.) -/
def applyEvent (r0 : PlayerRecord) (pending : Option (Option DateTime)) (ev : LogEvent) :
    PlayerRecord × Option (Option DateTime) :=
  let r1 := updateSeen r0 ev.timestamp
  match ev with
  | .connect ts =>
    let r2 := { r1 with connections := r1.connections + 1 }
    let r3 := if r2.current_life_start = none then { r2 with current_life_start := ts } else r2
    (r3, some ts)
  | .disconnect ts =>
    let r2 := { r1 with disconnections := r1.disconnections + 1 }
    match pending, ts with
    | some (some st), some t =>
      ({ r2 with session_times := r2.session_times ++ [(t.toSecs : Int) - (st.toSecs : Int)] },
        none)
    | _, _ => (r2, pending)
  | .zombieKilled _ =>
    ({ r1 with
        zombies_killed := r1.zombies_killed + 1
        lifetime_zombies_killed := r1.lifetime_zombies_killed + 1
        current_life_zombies_killed := r1.current_life_zombies_killed + 1 }, pending)
  | .death ts cause =>
    let r2 := { r1 with
        deaths := r1.deaths + 1
        death_timestamps := r1.death_timestamps ++ [ts]
        last_death := ts
        death_causes := r1.death_causes ++ [cause] }
    let r3 := match r2.current_life_start with
      | some t0 =>
        let seg : LifeSegment :=
          { start := t0
            endTime := ts
            duration := lifeDuration ts t0
            zombies_killed := r2.current_life_zombies_killed
            distance_traveled := r2.current_life_distance_traveled
            items_crafted := r2.current_life_items_crafted.length
            buildings_placed := r2.current_life_buildings_placed.length
            death_cause := cause }
        { r2 with lives := r2.lives ++ [seg] }
      | none => r2
    ({ r3 with
        current_life_zombies_killed := 0
        current_life_distance_traveled := 0
        current_life_items_crafted := []
        current_life_buildings_placed := []
        current_life_start := ts }, pending)
  | .distanceTraveled _ d =>
    ({ r1 with
        distance_traveled := r1.distance_traveled + d
        lifetime_distance_traveled := r1.lifetime_distance_traveled + d
        current_life_distance_traveled := r1.current_life_distance_traveled + d }, pending)
  | .levelUp ts skill level =>
    ({ r1 with level_ups := r1.level_ups ++ [⟨skill, level, ts⟩] }, pending)
  | .itemCrafted _ item =>
    ({ r1 with
        items_crafted := r1.items_crafted ++ [item]
        lifetime_items_crafted := r1.lifetime_items_crafted ++ [item]
        current_life_items_crafted := r1.current_life_items_crafted ++ [item] }, pending)
  | .vehicleEntered _ =>
    ({ r1 with vehicles_entered := r1.vehicles_entered + 1 }, pending)
  | .buildingPlaced _ b =>
    ({ r1 with
        buildings_placed := r1.buildings_placed ++ [b]
        lifetime_buildings_placed := r1.lifetime_buildings_placed ++ [b]
        current_life_buildings_placed := r1.current_life_buildings_placed ++ [b] }, pending)

/-! ### Association lists modelling the Python dicts -/

def alookup {α : Type} : List (String × α) → String → Option α
  | [], _ => none
  | (k, v) :: rest, u => if k = u then some v else alookup rest u

/-- Replace the value at a key, or append a fresh entry (dict insertion
order: a new key goes to the end). -/
def aset {α : Type} : List (String × α) → String → α → List (String × α)
  | [], u, v => [(u, v)]
  | (k, w) :: rest, u, v =>
    if k = u then (k, v) :: rest else (k, w) :: aset rest u v

def aerase {α : Type} : List (String × α) → String → List (String × α)
  | [], _ => []
  | (k, v) :: rest, u => if k = u then rest else (k, v) :: aerase rest u

abbrev StatsMap := List (String × PlayerRecord)

abbrev SessMap := List (String × Option DateTime)

/-- The matches one line produces, in the iteration order of
`LogParser.PATTERNS` (every pattern is tried; there is no break). -/
def lineHits (line : String) : List (String × LogEvent) :=
  let s := line.data
  ((matchConnect s).toList.map fun p => (p.2, LogEvent.connect (parseTimestamp (some p.1))))
  ++ ((matchDisconnect s).toList.map fun u => (u, LogEvent.disconnect (parseTimestamp none)))
  ++ ((matchZombie s).toList.map fun p => (p.2, LogEvent.zombieKilled (parseTimestamp (some p.1))))
  ++ ((matchDeath s).toList.map fun p =>
      (p.2, LogEvent.death (parseTimestamp (some p.1)) (extract_death_cause s)))
  ++ ((matchDistance s).toList.map fun p =>
      (p.2.1, LogEvent.distanceTraveled (parseTimestamp (some p.1)) p.2.2))
  ++ ((matchLevel s).toList.map fun p =>
      (p.2.1, LogEvent.levelUp (parseTimestamp (some p.1)) p.2.2.2 p.2.2.1))
  ++ ((matchItem s).toList.map fun p =>
      (p.2.1, LogEvent.itemCrafted (parseTimestamp (some p.1)) p.2.2))
  ++ ((matchVehicle s).toList.map fun p => (p.2, LogEvent.vehicleEntered (parseTimestamp (some p.1))))
  ++ ((matchBuilding s).toList.map fun p =>
      (p.2.1, LogEvent.buildingPlaced (parseTimestamp (some p.1)) p.2.2))

/-- Process one match: the `if not username: continue` guard, the implicit
`defaultdict` entry creation, the event dispatch, and the `session_starts`
bookkeeping. -/
def processHit (st : StatsMap × SessMap) (hit : String × LogEvent) : StatsMap × SessMap :=
  if hit.1 = "" then st
  else
    let r0 := (alookup st.1 hit.1).getD defaultRecord
    let res := applyEvent r0 (alookup st.2 hit.1) hit.2
    (aset st.1 hit.1 res.1,
      match res.2 with
      | none => aerase st.2 hit.1
      | some v => aset st.2 hit.1 v)

def parseLine (st : StatsMap × SessMap) (line : String) : StatsMap × SessMap :=
  (lineHits line).foldl processHit st

/-- `LogParser.parse_logs`: fold the per-line, per-pattern dispatch over
the batch, returning the per-player records (the session dict is local). -/
def parse_logs (log_lines : List String) : StatsMap :=
  (log_lines.foldl parseLine ([], [])).1

/-- Fold of the accumulator over an already-recognized event sequence for
one player (record plus that player's `session_starts` slot). -/
def foldEvents (st : PlayerRecord × Option (Option DateTime)) (evs : List LogEvent) :
    PlayerRecord × Option (Option DateTime) :=
  evs.foldl (fun s e => applyEvent s.1 s.2 e) st

/-! ### `PlayerStatsTracker.update_from_logs` -/

/-- The merge body of `update_from_logs` for an already-present username:
add the six legacy counters, concatenate the five ordered lists, take the
earlier `first_seen` and the later `last_seen`; every other field keeps
the stored record's value. -/
def mergeRecords (old fresh : PlayerRecord) : PlayerRecord :=
  { old with
    connections := old.connections + fresh.connections
    disconnections := old.disconnections + fresh.disconnections
    zombies_killed := old.zombies_killed + fresh.zombies_killed
    deaths := old.deaths + fresh.deaths
    distance_traveled := old.distance_traveled + fresh.distance_traveled
    vehicles_entered := old.vehicles_entered + fresh.vehicles_entered
    death_causes := old.death_causes ++ fresh.death_causes
    level_ups := old.level_ups ++ fresh.level_ups
    items_crafted := old.items_crafted ++ fresh.items_crafted
    buildings_placed := old.buildings_placed ++ fresh.buildings_placed
    session_times := old.session_times ++ fresh.session_times
    first_seen :=
      match fresh.first_seen with
      | some t =>
        match old.first_seen with
        | none => some t
        | some s => if t.toSecs < s.toSecs then some t else some s
      | none => old.first_seen
    last_seen :=
      match fresh.last_seen with
      | some t =>
        match old.last_seen with
        | none => some t
        | some s => if s.toSecs < t.toSecs then some t else some s
      | none => old.last_seen }

/-- The merge loop of `update_from_logs`: fresh usernames are inserted,
existing ones merged via `mergeRecords`. -/
def update_stats (stats parsed : StatsMap) : StatsMap :=
  parsed.foldl (fun acc p =>
    match alookup acc p.1 with
    | none => acc ++ [(p.1, p.2)]
    | some old => aset acc p.1 (mergeRecords old p.2)) stats

def update_from_logs (stats : StatsMap) (log_lines : List String) : StatsMap :=
  update_stats stats (parse_logs log_lines)

/-! ### `PlayerStatsTracker._save_stats` and `json.dump` -/

inductive JValue where
  | null
  | num (n : Int)
  | str (s : String)
  | arr (elems : List JValue)
  | obj (fields : List (String × JValue))

def pad2 (n : Nat) : String := if n < 10 then "0" ++ toString n else toString n

def pad4 (n : Nat) : String :=
  (if n < 10 then "000" else if n < 100 then "00" else if n < 1000 then "0" else "")
    ++ toString n

/-- `datetime.isoformat()` for whole-second naive datetimes. -/
def DateTime.isoformat (t : DateTime) : String :=
  pad4 t.year ++ "-" ++ pad2 t.month ++ "-" ++ pad2 t.day ++ "T"
    ++ pad2 t.hour ++ ":" ++ pad2 t.minute ++ ":" ++ pad2 t.second

/-- `json.dump` raises `TypeError` on a `datetime` value; `none` models
that crash. `_save_stats` converts `first_seen`, `last_seen` and level-up
timestamps to ISO strings, and nothing else. -/
def jsonOfOptDT : Option DateTime → Option JValue
  | none => some JValue.null
  | some _ => none

def jsonOfLevelUp (l : LevelUp) : JValue :=
  JValue.obj
    [ ("skill", JValue.str l.skill),
      ("level", JValue.num (l.level : Int)),
      ("timestamp", match l.timestamp with
        | none => JValue.null
        | some t => JValue.str t.isoformat) ]

/-- A `lives` entry always holds its raw `datetime` under `start`
(`_save_stats` never converts life segments), so serializing one always
raises. -/
def jsonOfLife (_ : LifeSegment) : Option JValue := none

def jstrList (l : List String) : JValue := JValue.arr (l.map JValue.str)

def jsonOfRecord (r : PlayerRecord) : Option JValue := do
  let cls ← jsonOfOptDT r.current_life_start
  let ld ← jsonOfOptDT r.last_death
  let dts ← r.death_timestamps.mapM jsonOfOptDT
  let lvs ← r.lives.mapM jsonOfLife
  some (JValue.obj
    [ ("lifetime_zombies_killed", JValue.num (r.lifetime_zombies_killed : Int)),
      ("lifetime_distance_traveled", JValue.num (r.lifetime_distance_traveled : Int)),
      ("lifetime_items_crafted", jstrList r.lifetime_items_crafted),
      ("lifetime_buildings_placed", jstrList r.lifetime_buildings_placed),
      ("current_life_zombies_killed", JValue.num (r.current_life_zombies_killed : Int)),
      ("current_life_distance_traveled", JValue.num (r.current_life_distance_traveled : Int)),
      ("current_life_items_crafted", jstrList r.current_life_items_crafted),
      ("current_life_buildings_placed", jstrList r.current_life_buildings_placed),
      ("current_life_start", cls),
      ("connections", JValue.num (r.connections : Int)),
      ("disconnections", JValue.num (r.disconnections : Int)),
      ("zombies_killed", JValue.num (r.zombies_killed : Int)),
      ("deaths", JValue.num (r.deaths : Int)),
      ("death_causes", jstrList r.death_causes),
      ("death_timestamps", JValue.arr dts),
      ("distance_traveled", JValue.num (r.distance_traveled : Int)),
      ("level_ups", JValue.arr (r.level_ups.map jsonOfLevelUp)),
      ("items_crafted", jstrList r.items_crafted),
      ("vehicles_entered", JValue.num (r.vehicles_entered : Int)),
      ("buildings_placed", jstrList r.buildings_placed),
      ("first_seen", match r.first_seen with
        | none => JValue.null
        | some t => JValue.str t.isoformat),
      ("last_seen", match r.last_seen with
        | none => JValue.null
        | some t => JValue.str t.isoformat),
      ("last_death", ld),
      ("session_times", JValue.arr (r.session_times.map JValue.num)),
      ("lives", JValue.arr lvs) ])

/-- `PlayerStatsTracker._save_stats` followed by `json.dump`; `none` is
the uncaught `TypeError`. -/
def save_stats (stats : StatsMap) : Option JValue := do
  let fields ← stats.mapM (fun p => do
    let v ← jsonOfRecord p.2
    some (p.1, v))
  some (JValue.obj fields)

/-! ### Analytics -/

/-- `LogParser.calculate_playstyle_profile`, per record. Python's float
division `distance / 10` is modelled with exact rationals. -/
def playstyle (r : PlayerRecord) : String :=
  if r.zombies_killed > 50 ∧ (r.zombies_killed : ℚ) > (r.distance_traveled : ℚ) / 10 then
    "Combat-Focused Fighter"
  else if r.distance_traveled > 1000 ∧ r.distance_traveled > r.zombies_killed * 10 then
    "Explorer/Looter"
  else if r.buildings_placed.length > 20 ∨ r.items_crafted.length > 50 then
    "Builder/Crafter"
  else if r.deaths > 5 then
    "High-Risk Player"
  else if r.connections > 10 then
    "Regular Player"
  else
    "Casual Survivor"

def calculate_playstyle_profile (stats : StatsMap) : List (String × String) :=
  stats.map fun p => (p.1, playstyle p.2)

/-- The spec's ordered decision list, written as data: rules are tried in
order and the first whose test holds names the playstyle; no match gives
the default label. -/
def playstyleRulesSpec : List ((PlayerRecord → Bool) × String) :=
  [ (fun r => decide (r.zombies_killed > 50 ∧ (r.zombies_killed : ℚ) > (r.distance_traveled : ℚ) / 10),
      "Combat-Focused Fighter"),
    (fun r => decide (r.distance_traveled > 1000 ∧ r.distance_traveled > r.zombies_killed * 10),
      "Explorer/Looter"),
    (fun r => decide (r.buildings_placed.length > 20 ∨ r.items_crafted.length > 50),
      "Builder/Crafter"),
    (fun r => decide (r.deaths > 5), "High-Risk Player"),
    (fun r => decide (r.connections > 10), "Regular Player") ]

def playstyleSpec (r : PlayerRecord) : String :=
  ((playstyleRulesSpec.find? fun rule => rule.1 r).map Prod.snd).getD "Casual Survivor"

/-- Stable descending insertion by value: the behavior of Python's stable
`sorted(..., key=value, reverse=True)`. -/
def insertDesc (x : String × ℚ) : List (String × ℚ) → List (String × ℚ)
  | [] => [x]
  | y :: ys => if y.2 > x.2 then y :: insertDesc x ys else x :: y :: ys

def sortDesc (l : List (String × ℚ)) : List (String × ℚ) := l.foldr insertDesc []

/-- `max(lives, key=duration)['duration']`: Python `max` keeps the first
maximal element; only its duration is used. -/
def maxLifeDuration : List LifeSegment → Int
  | [] => 0
  | l :: ls => ls.foldl (fun b x => if x.duration > b then x.duration else b) l.duration

def longestLifeRows (stats : StatsMap) (now : DateTime) : List (String × ℚ) :=
  stats.filterMap fun p =>
    if p.2.lives ≠ [] then some (p.1, ((maxLifeDuration p.2.lives : Int) : ℚ))
    else
      match p.2.current_life_start with
      | some st => some (p.1, (((now.toSecs : Int) - (st.toSecs : Int) : Int) : ℚ))
      | none => none

def currentLifeRows (stats : StatsMap) (now : DateTime) : List (String × ℚ) :=
  stats.filterMap fun p =>
    match p.2.current_life_start with
    | some st => some (p.1, (((now.toSecs : Int) - (st.toSecs : Int) : Int) : ℚ))
    | none => none

def sessionSum (l : List Int) : Int := l.foldl (· + ·) 0

/-- `LogParser.get_leaderboards`; `datetime.now()` is the explicit `now`.
The nine categories appear in the source's insertion order. -/
def get_leaderboards (stats : StatsMap) (now : DateTime) : List (String × List (String × ℚ)) :=
  [ ("zombies_killed", sortDesc (stats.map fun p => (p.1, (p.2.zombies_killed : ℚ)))),
    ("distance_traveled", sortDesc (stats.map fun p => (p.1, (p.2.distance_traveled : ℚ)))),
    ("buildings_placed", sortDesc (stats.map fun p => (p.1, (p.2.buildings_placed.length : ℚ)))),
    ("items_crafted", sortDesc (stats.map fun p => (p.1, (p.2.items_crafted.length : ℚ)))),
    ("total_playtime", sortDesc (stats.map fun p => (p.1, ((sessionSum p.2.session_times : Int) : ℚ)))),
    ("longest_life", sortDesc (longestLifeRows stats now)),
    ("current_life_duration", sortDesc (currentLifeRows stats now)),
    ("kill_death_ratio", sortDesc (stats.map fun p =>
      (p.1, (p.2.zombies_killed : ℚ) / (if p.2.deaths > 0 then (p.2.deaths : ℚ) else 1)))),
    ("most_deaths", sortDesc (stats.map fun p => (p.1, (p.2.deaths : ℚ)))) ]

def nineCategories : List String :=
  [ "zombies_killed", "distance_traveled", "buildings_placed", "items_crafted",
    "total_playtime", "longest_life", "current_life_duration", "kill_death_ratio",
    "most_deaths" ]

/-- `str.title()` after `replace('_', ' ')`. -/
def pyTitle (s : String) : String :=
  (s.data.foldl (fun (acc : List Char × Bool) c =>
    (acc.1 ++ [if c.isAlpha then (if acc.2 then c.toLower else c.toUpper) else c],
      c.isAlpha)) ([], false)).1.asString

def underscoreToSpace (s : String) : String :=
  (s.data.map fun c => if c = '_' then ' ' else c).asString

def category_names : List (String × String) :=
  [ ("zombies_killed", "🧟 Zombie Slayers"),
    ("distance_traveled", "🚶 Top Explorers"),
    ("buildings_placed", "🏗️ Master Builders"),
    ("items_crafted", "🔨 Expert Crafters"),
    ("total_playtime", "⏱️ Most Dedicated Players") ]

/-- One decimal place, modelling Python's `"%.1f"`-style rendering of the
float values (rounding to nearest tenth). -/
def fmt1 (q : ℚ) : String :=
  let n : Int := round (q * 10)
  toString (n / 10) ++ "." ++ toString (n.natAbs % 10)

def pyNum (v : ℚ) : String :=
  if v.den = 1 then toString v.num else fmt1 v

def medal (i : Nat) : String :=
  if i = 1 then "🥇" else if i = 2 then "🥈" else if i = 3 then "🥉"
  else toString i ++ "."

def valueStr (category : String) (v : ℚ) : String :=
  if category = "total_playtime" then fmt1 (v / 3600) ++ " hours"
  else if category = "distance_traveled" then pyNum v ++ " tiles"
  else pyNum v

/-- `PlayerStatsTracker.format_leaderboard` (the caller default for
`top_n` is 10). An unknown category is reported as an error string; a
known category renders a title line, a blank line, and one row per
player. -/
def format_leaderboard (stats : StatsMap) (now : DateTime) (category : String) (top_n : Nat) :
    String :=
  match alookup (get_leaderboards stats now) category with
  | none => "Unknown leaderboard category: " ++ category
  | some board =>
    let b := board.take top_n
    let title := (alookup category_names category).getD (pyTitle (underscoreToSpace category))
    let rows := b.enum.map fun p =>
      medal (p.1 + 1) ++ " **" ++ p.2.1 ++ "**: " ++ valueStr category p.2.2
    String.intercalate "\n" (["**" ++ title ++ "**", ""] ++ rows)

/-- The error-outcome shape of `format_leaderboard`. -/
def isErrorOutcome (s : String) : Bool :=
  (litMatch "unknown leaderboard category:".data s.data).isSome

/-! ### Invariants and concrete inputs used by the claims -/

abbrev zkInvariant (r : PlayerRecord) : Prop :=
  (r.lives.map LifeSegment.zombies_killed).sum + r.current_life_zombies_killed
    = r.lifetime_zombies_killed

abbrev distInvariant (r : PlayerRecord) : Prop :=
  (r.lives.map LifeSegment.distance_traveled).sum + r.current_life_distance_traveled
    = r.lifetime_distance_traveled

/-- The kill / death / distance events with resolvable timestamps that
claim C1 ranges over. -/
def isKillDeathDistance : LogEvent → Bool
  | .zombieKilled ts => ts.isSome
  | .death ts _ => ts.isSome
  | .distanceTraveled ts _ => ts.isSome
  | _ => false

/-- The segment the death branch appends when a life is open. -/
def closedSegment (r : PlayerRecord) (ts : Option DateTime) (cause : String) (t0 : DateTime) :
    LifeSegment :=
  { start := t0
    endTime := ts
    duration := lifeDuration ts t0
    zombies_killed := r.current_life_zombies_killed
    distance_traveled := r.current_life_distance_traveled
    items_crafted := r.current_life_items_crafted.length
    buildings_placed := r.current_life_buildings_placed.length
    death_cause := cause }

/-! ### Concrete inputs used by the claims -/

def lineConnectBob : String :=
  "[20-01-25 10:00:00.000] ConnectionManager: [fully-connected] ... username=\"Bob\""

/-- The five lines of the spec's end-to-end example, verbatim. -/
def c3Lines : List String :=
  [lineConnectBob, "Bob killed a zombie", "Bob killed a zombie", "Bob died",
   "Disconnected player \"Bob\""]

/-- The same example with the bracketed timestamps the kill/death
patterns require. -/
def c3LinesTs : List String :=
  [lineConnectBob,
   "[20-01-25 10:01:00.000] Bob killed a zombie",
   "[20-01-25 10:02:00.000] Bob killed a zombie",
   "[20-01-25 10:03:00.000] Bob died",
   "Disconnected player \"Bob\""]

def dtC3 : DateTime := ⟨2025, 1, 20, 10, 0, 0⟩

def dtC3d : DateTime := ⟨2025, 1, 20, 10, 3, 0⟩

def dtC2k : DateTime := ⟨2025, 1, 20, 10, 4, 0⟩

/-- What `parse_logs` actually produces for the spec's verbatim example:
the kill/death lines carry no bracketed timestamp, so no pattern matches
them at all. -/
def c3BobRecord : PlayerRecord :=
  { defaultRecord with
    connections := 1
    disconnections := 1
    current_life_start := some dtC3
    first_seen := some dtC3
    last_seen := some dtC3 }

/-- The record for the timestamped variant of the example. -/
def c3BobRecordTs : PlayerRecord :=
  { defaultRecord with
    lifetime_zombies_killed := 2
    current_life_start := some dtC3d
    connections := 1
    disconnections := 1
    zombies_killed := 2
    deaths := 1
    death_causes := ["Unknown"]
    death_timestamps := [some dtC3d]
    first_seen := some dtC3
    last_seen := some dtC3d
    last_death := some dtC3d
    lives := [⟨dtC3, some dtC3d, 180, 2, 0, 0, 0, "Unknown"⟩] }

/-- A disconnect line whose text carries a parseable timestamp. -/
def lineDisconnectTsBob : String := "[20-01-25 11:00:00.000] Disconnected player \"Bob\""

def c6Lines : List String := [lineConnectBob, lineDisconnectTsBob]

def c6BobRecord : PlayerRecord :=
  { defaultRecord with
    connections := 1
    disconnections := 1
    current_life_start := some dtC3
    first_seen := some dtC3
    last_seen := some dtC3 }

/-- A batch that both closes a life segment and leaves the current life
with a nonzero kill counter. -/
def c2Lines : List String :=
  [lineConnectBob,
   "[20-01-25 10:01:00.000] Bob killed a zombie",
   "[20-01-25 10:03:00.000] Bob died",
   "[20-01-25 10:04:00.000] Bob killed a zombie"]

def c2ParsedBob : PlayerRecord :=
  { defaultRecord with
    lifetime_zombies_killed := 2
    current_life_zombies_killed := 1
    current_life_start := some dtC3d
    connections := 1
    zombies_killed := 2
    deaths := 1
    death_causes := ["Unknown"]
    death_timestamps := [some dtC3d]
    first_seen := some dtC3
    last_seen := some dtC2k
    last_death := some dtC3d
    lives := [⟨dtC3, some dtC3d, 180, 1, 0, 0, 0, "Unknown"⟩] }

/-- What the store holds for Bob after merging `c2Lines` into an existing
record: the batch's current-life counters and closed segment are gone. -/
def c2StoredBob : PlayerRecord :=
  { defaultRecord with
    connections := 1
    zombies_killed := 2
    deaths := 1
    death_causes := ["Unknown"]
    first_seen := some dtC3
    last_seen := some dtC2k }

/-- The spec's rule-order example player: satisfies both rule (a) and
rule (e). -/
def c8Fighter : PlayerRecord :=
  { defaultRecord with
    zombies_killed := 60
    distance_traveled := 200
    connections := 15 }

def dtW : DateTime := ⟨2025, 3, 5, 12, 0, 0⟩

def dtW2 : DateTime := ⟨2025, 3, 6, 12, 0, 0⟩

/-- A kill followed by a death, both timestamped, starting from the fresh
record: the death finds no open life, so the kill never reaches the
history. -/
def c1BadEvents : List LogEvent :=
  [LogEvent.zombieKilled (some dtW), LogEvent.death (some dtW2) "Unknown"]

def c1GoodEvents : List LogEvent :=
  [LogEvent.zombieKilled (some dtW), LogEvent.death (some dtW2) "Zombie",
   LogEvent.distanceTraveled (some dtW2) 5]

def c1OpenRecord : PlayerRecord := { defaultRecord with current_life_start := some dtW }

def c5OpenRecord : PlayerRecord :=
  { defaultRecord with
    current_life_start := some dtW
    current_life_zombies_killed := 2
    current_life_distance_traveled := 3
    current_life_items_crafted := ["Spear"] }

def c10Record : PlayerRecord :=
  { defaultRecord with deaths := 4, death_causes := ["Fire"] }

def c2FreshWitnessRecord : PlayerRecord :=
  { defaultRecord with
    current_life_zombies_killed := 7
    current_life_start := some dtW
    zombies_killed := 7
    lives := [⟨dtW, some dtW2, 86400, 1, 0, 0, 0, "Zombie"⟩] }

def c4OldRecord : PlayerRecord :=
  { defaultRecord with
    connections := 1
    deaths := 2
    death_causes := ["Zombie"]
    session_times := [30]
    first_seen := some dtW2
    last_seen := some dtW2 }

def c4FreshRecord : PlayerRecord :=
  { defaultRecord with
    connections := 2
    deaths := 1
    death_causes := ["Fire"]
    session_times := [60]
    first_seen := some dtW
    last_seen := some dtW }

/-! ### Helper lemmas -/

@[simp] theorem updateSeen_lives (r : PlayerRecord) (ts : Option DateTime) :
    (updateSeen r ts).lives = r.lives := by cases ts <;> rfl

@[simp] theorem updateSeen_current_life_start (r : PlayerRecord) (ts : Option DateTime) :
    (updateSeen r ts).current_life_start = r.current_life_start := by cases ts <;> rfl

@[simp] theorem updateSeen_current_life_zombies_killed (r : PlayerRecord) (ts : Option DateTime) :
    (updateSeen r ts).current_life_zombies_killed = r.current_life_zombies_killed := by
  cases ts <;> rfl

@[simp] theorem updateSeen_current_life_distance_traveled (r : PlayerRecord) (ts : Option DateTime) :
    (updateSeen r ts).current_life_distance_traveled = r.current_life_distance_traveled := by
  cases ts <;> rfl

@[simp] theorem updateSeen_current_life_items_crafted (r : PlayerRecord) (ts : Option DateTime) :
    (updateSeen r ts).current_life_items_crafted = r.current_life_items_crafted := by
  cases ts <;> rfl

@[simp] theorem updateSeen_current_life_buildings_placed (r : PlayerRecord) (ts : Option DateTime) :
    (updateSeen r ts).current_life_buildings_placed = r.current_life_buildings_placed := by
  cases ts <;> rfl

@[simp] theorem updateSeen_lifetime_zombies_killed (r : PlayerRecord) (ts : Option DateTime) :
    (updateSeen r ts).lifetime_zombies_killed = r.lifetime_zombies_killed := by
  cases ts <;> rfl

@[simp] theorem updateSeen_lifetime_distance_traveled (r : PlayerRecord) (ts : Option DateTime) :
    (updateSeen r ts).lifetime_distance_traveled = r.lifetime_distance_traveled := by
  cases ts <;> rfl

@[simp] theorem updateSeen_zombies_killed (r : PlayerRecord) (ts : Option DateTime) :
    (updateSeen r ts).zombies_killed = r.zombies_killed := by cases ts <;> rfl

@[simp] theorem updateSeen_distance_traveled (r : PlayerRecord) (ts : Option DateTime) :
    (updateSeen r ts).distance_traveled = r.distance_traveled := by cases ts <;> rfl

@[simp] theorem updateSeen_deaths (r : PlayerRecord) (ts : Option DateTime) :
    (updateSeen r ts).deaths = r.deaths := by cases ts <;> rfl

@[simp] theorem updateSeen_death_causes (r : PlayerRecord) (ts : Option DateTime) :
    (updateSeen r ts).death_causes = r.death_causes := by cases ts <;> rfl

@[simp] theorem updateSeen_death_timestamps (r : PlayerRecord) (ts : Option DateTime) :
    (updateSeen r ts).death_timestamps = r.death_timestamps := by cases ts <;> rfl

@[simp] theorem updateSeen_session_times (r : PlayerRecord) (ts : Option DateTime) :
    (updateSeen r ts).session_times = r.session_times := by cases ts <;> rfl

@[simp] theorem updateSeen_connections (r : PlayerRecord) (ts : Option DateTime) :
    (updateSeen r ts).connections = r.connections := by cases ts <;> rfl

@[simp] theorem updateSeen_disconnections (r : PlayerRecord) (ts : Option DateTime) :
    (updateSeen r ts).disconnections = r.disconnections := by cases ts <;> rfl

theorem alookup_aset_self {α : Type} (l : List (String × α)) (u : String) (v : α) :
    alookup (aset l u v) u = some v := by
  induction l with
  | nil => simp [aset, alookup]
  | cons p rest ih =>
    obtain ⟨k, w⟩ := p
    by_cases h : k = u
    · simp [aset, alookup, h]
    · simp [aset, alookup, h, ih]

theorem update_stats_existing (stats : StatsMap) (u : String) (old fresh : PlayerRecord)
    (h : alookup stats u = some old) :
    alookup (update_stats stats [(u, fresh)]) u = some (mergeRecords old fresh) := by
  simp [update_stats, h, alookup_aset_self]

/-- A death while a life is open appends exactly the segment built from
the current-life counters. -/
theorem applyEvent_death_open (r : PlayerRecord) (pend : Option (Option DateTime))
    (ts : Option DateTime) (cause : String) (t0 : DateTime)
    (h : r.current_life_start = some t0) :
    (applyEvent r pend (LogEvent.death ts cause)).1.lives
      = r.lives ++ [closedSegment r ts cause t0] := by
  simp [applyEvent, LogEvent.timestamp, h, closedSegment]

/-- A death with no open life leaves the history untouched. -/
theorem applyEvent_death_closed (r : PlayerRecord) (pend : Option (Option DateTime))
    (ts : Option DateTime) (cause : String) (h : r.current_life_start = none) :
    (applyEvent r pend (LogEvent.death ts cause)).1.lives = r.lives := by
  simp [applyEvent, LogEvent.timestamp, h]

/-- Every death resets the four current-life counters and restarts the
life clock at the death's timestamp. -/
theorem applyEvent_death_resets (r : PlayerRecord) (pend : Option (Option DateTime))
    (ts : Option DateTime) (cause : String) :
    (applyEvent r pend (LogEvent.death ts cause)).1.current_life_zombies_killed = 0 ∧
    (applyEvent r pend (LogEvent.death ts cause)).1.current_life_distance_traveled = 0 ∧
    (applyEvent r pend (LogEvent.death ts cause)).1.current_life_items_crafted = [] ∧
    (applyEvent r pend (LogEvent.death ts cause)).1.current_life_buildings_placed = [] ∧
    (applyEvent r pend (LogEvent.death ts cause)).1.current_life_start = ts := by
  rcases hc : r.current_life_start with _ | t0 <;>
    simp [applyEvent, LogEvent.timestamp, hc]

/-- Every death increments the death counter and appends the cause and
the timestamp. -/
theorem applyEvent_death_counters (r : PlayerRecord) (pend : Option (Option DateTime))
    (ts : Option DateTime) (cause : String) :
    (applyEvent r pend (LogEvent.death ts cause)).1.deaths = r.deaths + 1 ∧
    (applyEvent r pend (LogEvent.death ts cause)).1.death_causes = r.death_causes ++ [cause] ∧
    (applyEvent r pend (LogEvent.death ts cause)).1.death_timestamps
      = r.death_timestamps ++ [ts] := by
  rcases hc : r.current_life_start with _ | t0 <;>
    simp [applyEvent, LogEvent.timestamp, hc]

/-- One kill / death / distance step with a resolvable timestamp keeps
both lifetime-accounting invariants and keeps the life open. -/
theorem applyEvent_kdd_inv (r : PlayerRecord) (pend : Option (Option DateTime)) (e : LogEvent)
    (hke : isKillDeathDistance e = true)
    (hz : zkInvariant r) (hd : distInvariant r) (ho : r.current_life_start.isSome = true) :
    zkInvariant (applyEvent r pend e).1 ∧ distInvariant (applyEvent r pend e).1 ∧
      (applyEvent r pend e).1.current_life_start.isSome = true := by
  cases e with
  | connect ts => simp [isKillDeathDistance] at hke
  | disconnect ts => simp [isKillDeathDistance] at hke
  | zombieKilled ts =>
    cases ts with
    | none => simp [isKillDeathDistance] at hke
    | some t =>
      refine ⟨?_, ?_, ?_⟩
      · unfold zkInvariant
        dsimp only [applyEvent, LogEvent.timestamp, updateSeen]
        omega
      · unfold distInvariant
        dsimp only [applyEvent, LogEvent.timestamp, updateSeen]
        omega
      · dsimp only [applyEvent, LogEvent.timestamp, updateSeen]
        exact ho
  | death ts cause =>
    cases ts with
    | none => simp [isKillDeathDistance] at hke
    | some t =>
      obtain ⟨t0, ht0⟩ := Option.isSome_iff_exists.mp ho
      refine ⟨?_, ?_, ?_⟩
      · unfold zkInvariant
        dsimp only [applyEvent, LogEvent.timestamp, updateSeen]
        rw [ht0]
        simp only [List.map_append, List.sum_append, List.map_cons, List.map_nil,
          List.sum_cons, List.sum_nil]
        omega
      · unfold distInvariant
        dsimp only [applyEvent, LogEvent.timestamp, updateSeen]
        rw [ht0]
        simp only [List.map_append, List.sum_append, List.map_cons, List.map_nil,
          List.sum_cons, List.sum_nil]
        omega
      · dsimp only [applyEvent, LogEvent.timestamp, updateSeen]
        rfl
  | distanceTraveled ts d =>
    cases ts with
    | none => simp [isKillDeathDistance] at hke
    | some t =>
      refine ⟨?_, ?_, ?_⟩
      · unfold zkInvariant
        dsimp only [applyEvent, LogEvent.timestamp, updateSeen]
        omega
      · unfold distInvariant
        dsimp only [applyEvent, LogEvent.timestamp, updateSeen]
        omega
      · dsimp only [applyEvent, LogEvent.timestamp, updateSeen]
        exact ho
  | levelUp ts skill level => simp [isKillDeathDistance] at hke
  | itemCrafted ts item => simp [isKillDeathDistance] at hke
  | vehicleEntered ts => simp [isKillDeathDistance] at hke
  | buildingPlaced ts b => simp [isKillDeathDistance] at hke

/-- Evaluating `playstyle` is the first-match evaluation of the spec's
ordered decision list. -/
theorem playstyle_matches_spec (r : PlayerRecord) : playstyle r = playstyleSpec r := by
  unfold playstyle playstyleSpec playstyleRulesSpec
  by_cases h1 : r.zombies_killed > 50 ∧ (r.zombies_killed : ℚ) > (r.distance_traveled : ℚ) / 10
  · simp [List.find?, h1]
  · by_cases h2 : r.distance_traveled > 1000 ∧ r.distance_traveled > r.zombies_killed * 10
    · simp [List.find?, h1, h2]
    · by_cases h3 : r.buildings_placed.length > 20 ∨ r.items_crafted.length > 50
      · simp [List.find?, h1, h2, h3]
      · by_cases h4 : r.deaths > 5
        · simp [List.find?, h1, h2, h3, h4]
        · by_cases h5 : r.connections > 10
          · simp [List.find?, h1, h2, h3, h4, h5]
          · simp [List.find?, h1, h2, h3, h4, h5]

/-! ### Claims -/

/-- Claim C1, counterexample: starting from the fresh record, a
timestamped kill followed by a timestamped death breaks the lifetime
accounting. The death finds no open life (`current_life_start` is still
`None` — kills do not open a life), so no segment is appended, yet the
current-life counter is still reset: the kill vanishes from
`history + current_life` while `lifetime` keeps it. -/
theorem c1_counterexample :
    c1BadEvents.all isKillDeathDistance = true ∧
    (foldEvents (defaultRecord, none) c1BadEvents).1.lifetime_zombies_killed = 1 ∧
    ¬ zkInvariant (foldEvents (defaultRecord, none) c1BadEvents).1 :=
  ⟨by decide, by decide, by decide⟩

/-- Claim C1, amended: for a player whose record already satisfies both
lifetime-accounting equalities and whose current life is open
(`current_life_start` set, as a prior Connect or Death with a resolvable
timestamp leaves it), any batch of ZombieKilled / Death /
DistanceTraveled events with resolvable timestamps preserves
`sum(history) + current_life == lifetime` for both zombies_killed and
distance_traveled. Without the open-life premise the equality fails (see
the counterexample): kills before the first Death are dropped from
history. -/
theorem c1_invariant_preserved :
    ∀ (evs : List LogEvent), evs.all isKillDeathDistance = true →
    ∀ (r : PlayerRecord) (pend : Option (Option DateTime)),
      zkInvariant r → distInvariant r → r.current_life_start.isSome = true →
      zkInvariant (foldEvents (r, pend) evs).1 ∧
        distInvariant (foldEvents (r, pend) evs).1 := by
  intro evs
  induction evs with
  | nil =>
    intro _ r pend hz hd _
    exact ⟨hz, hd⟩
  | cons e rest ih =>
    intro hk r pend hz hd ho
    have hk' : isKillDeathDistance e = true ∧ rest.all isKillDeathDistance = true := by
      simpa [List.all_cons, Bool.and_eq_true] using hk
    obtain ⟨hz', hd', ho'⟩ := applyEvent_kdd_inv r pend e hk'.1 hz hd ho
    exact ih hk'.2 (applyEvent r pend e).1 (applyEvent r pend e).2 hz' hd' ho'

/-- Witness for the amended C1 theorem at a concrete open-life record and
a concrete kill / death / distance batch. -/
theorem c1_invariant_preserved_witness :
    zkInvariant (foldEvents (c1OpenRecord, none) c1GoodEvents).1 ∧
    distInvariant (foldEvents (c1OpenRecord, none) c1GoodEvents).1 :=
  c1_invariant_preserved c1GoodEvents (by decide) c1OpenRecord none (by decide) (by decide)
    (by decide)

/-- Claim C2, counterexample: the batch `c2Lines` leaves Bob with one
closed life segment and one current-life kill, but merging it into a
store that already has Bob keeps the stored current-life counters and
history: the batch's current-life counter is not added (0, not 0 + 1)
and the closed segment is not appended. -/
theorem c2_counterexample :
    alookup (parse_logs c2Lines) "Bob" = some c2ParsedBob ∧
    c2ParsedBob.current_life_zombies_killed = 1 ∧
    c2ParsedBob.lives.length = 1 ∧
    alookup (update_from_logs [("Bob", defaultRecord)] c2Lines) "Bob" = some c2StoredBob ∧
    c2StoredBob.current_life_zombies_killed = 0 ∧
    c2StoredBob.lives = [] ∧
    c2StoredBob.current_life_zombies_killed
      ≠ defaultRecord.current_life_zombies_killed + c2ParsedBob.current_life_zombies_killed :=
  ⟨by decide, rfl, rfl, by decide, rfl, rfl, by decide⟩

/-- Claim C2, amended: merging a batch for a username already in the
store adds only the legacy counters and concatenates only the legacy
lists; the batch's current-life counters, current-life start, life
history and lifetime counters are discarded — the stored record keeps
its own values for all of them. -/
theorem c2_merge_discards_batch_life_state (stats : StatsMap) (u : String)
    (old fresh : PlayerRecord) (h : alookup stats u = some old) :
    alookup (update_stats stats [(u, fresh)]) u = some (mergeRecords old fresh) ∧
    (mergeRecords old fresh).current_life_zombies_killed = old.current_life_zombies_killed ∧
    (mergeRecords old fresh).current_life_distance_traveled
      = old.current_life_distance_traveled ∧
    (mergeRecords old fresh).current_life_items_crafted = old.current_life_items_crafted ∧
    (mergeRecords old fresh).current_life_buildings_placed
      = old.current_life_buildings_placed ∧
    (mergeRecords old fresh).current_life_start = old.current_life_start ∧
    (mergeRecords old fresh).lives = old.lives ∧
    (mergeRecords old fresh).lifetime_zombies_killed = old.lifetime_zombies_killed ∧
    (mergeRecords old fresh).lifetime_distance_traveled = old.lifetime_distance_traveled :=
  ⟨update_stats_existing stats u old fresh h, rfl, rfl, rfl, rfl, rfl, rfl, rfl, rfl⟩

/-- Witness for the amended C2 theorem: a fresh batch record carrying an
open-life counter and a closed segment is merged onto a stored record. -/
theorem c2_merge_discards_batch_life_state_witness :
    alookup (update_stats [("Bob", c2StoredBob)] [("Bob", c2FreshWitnessRecord)]) "Bob"
        = some (mergeRecords c2StoredBob c2FreshWitnessRecord) ∧
    (mergeRecords c2StoredBob c2FreshWitnessRecord).current_life_zombies_killed
        = c2StoredBob.current_life_zombies_killed ∧
    (mergeRecords c2StoredBob c2FreshWitnessRecord).current_life_distance_traveled
        = c2StoredBob.current_life_distance_traveled ∧
    (mergeRecords c2StoredBob c2FreshWitnessRecord).current_life_items_crafted
        = c2StoredBob.current_life_items_crafted ∧
    (mergeRecords c2StoredBob c2FreshWitnessRecord).current_life_buildings_placed
        = c2StoredBob.current_life_buildings_placed ∧
    (mergeRecords c2StoredBob c2FreshWitnessRecord).current_life_start
        = c2StoredBob.current_life_start ∧
    (mergeRecords c2StoredBob c2FreshWitnessRecord).lives = c2StoredBob.lives ∧
    (mergeRecords c2StoredBob c2FreshWitnessRecord).lifetime_zombies_killed
        = c2StoredBob.lifetime_zombies_killed ∧
    (mergeRecords c2StoredBob c2FreshWitnessRecord).lifetime_distance_traveled
        = c2StoredBob.lifetime_distance_traveled :=
  c2_merge_discards_batch_life_state [("Bob", c2StoredBob)] "Bob" c2StoredBob
    c2FreshWitnessRecord rfl

/-- Claim C3, counterexample: on the spec's five verbatim lines, the
kill and death lines match no pattern at all (every kill/death pattern
requires a bracketed `[timestamp]`, which those lines lack), so the
resulting record has no kills, no deaths and no history segment — not
the claimed connections=1 / lifetime=2 / deaths=1 / one-segment record. -/
theorem c3_counterexample :
    alookup (parse_logs c3Lines) "Bob" = some c3BobRecord ∧
    c3BobRecord.connections = 1 ∧
    c3BobRecord.deaths = 0 ∧
    c3BobRecord.lifetime_zombies_killed = 0 ∧
    c3BobRecord.zombies_killed = 0 ∧
    c3BobRecord.lives = [] :=
  ⟨by decide, rfl, rfl, rfl, rfl, rfl⟩

/-- Claim C3, amended: with the bracketed timestamps the kill/death
patterns require added to those lines, processing them in order yields
exactly the claimed record for Bob: connections=1,
current_life_zombies_killed=0, lifetime_zombies_killed=2, deaths=1, and
exactly one history segment whose zombies_killed is 2. -/
theorem c3_end_to_end_timestamped :
    alookup (parse_logs c3LinesTs) "Bob" = some c3BobRecordTs ∧
    c3BobRecordTs.connections = 1 ∧
    c3BobRecordTs.current_life_zombies_killed = 0 ∧
    c3BobRecordTs.lifetime_zombies_killed = 2 ∧
    c3BobRecordTs.deaths = 1 ∧
    c3BobRecordTs.lives.map LifeSegment.zombies_killed = [2] :=
  ⟨by decide, rfl, rfl, rfl, rfl, rfl⟩

/-- Claim C4: merging a batch for a username already in the store adds
the six counters (connections, disconnections, zombies_killed, deaths,
distance_traveled, vehicles_entered), concatenates the five ordered
lists (death_causes, level_ups, items_crafted, buildings_placed,
session_times), and takes the minimum of the stored and batch
`first_seen` and the maximum of the stored and batch `last_seen` (an
absent side leaves the other); the merged record is what the store then
holds for that username. -/
theorem c4_merge_semantics :
    (∀ old fresh : PlayerRecord,
      (mergeRecords old fresh).connections = old.connections + fresh.connections ∧
      (mergeRecords old fresh).disconnections = old.disconnections + fresh.disconnections ∧
      (mergeRecords old fresh).zombies_killed = old.zombies_killed + fresh.zombies_killed ∧
      (mergeRecords old fresh).deaths = old.deaths + fresh.deaths ∧
      (mergeRecords old fresh).distance_traveled
        = old.distance_traveled + fresh.distance_traveled ∧
      (mergeRecords old fresh).vehicles_entered
        = old.vehicles_entered + fresh.vehicles_entered ∧
      (mergeRecords old fresh).death_causes = old.death_causes ++ fresh.death_causes ∧
      (mergeRecords old fresh).level_ups = old.level_ups ++ fresh.level_ups ∧
      (mergeRecords old fresh).items_crafted = old.items_crafted ++ fresh.items_crafted ∧
      (mergeRecords old fresh).buildings_placed
        = old.buildings_placed ++ fresh.buildings_placed ∧
      (mergeRecords old fresh).session_times = old.session_times ++ fresh.session_times) ∧
    (∀ (old fresh : PlayerRecord) (s t : DateTime),
      old.first_seen = some s → fresh.first_seen = some t →
      ∃ u, (mergeRecords old fresh).first_seen = some u ∧
        u.toSecs = Nat.min s.toSecs t.toSecs) ∧
    (∀ old fresh : PlayerRecord, fresh.first_seen = none →
      (mergeRecords old fresh).first_seen = old.first_seen) ∧
    (∀ old fresh : PlayerRecord, old.first_seen = none →
      (mergeRecords old fresh).first_seen = fresh.first_seen) ∧
    (∀ (old fresh : PlayerRecord) (s t : DateTime),
      old.last_seen = some s → fresh.last_seen = some t →
      ∃ u, (mergeRecords old fresh).last_seen = some u ∧
        u.toSecs = Nat.max s.toSecs t.toSecs) ∧
    (∀ old fresh : PlayerRecord, fresh.last_seen = none →
      (mergeRecords old fresh).last_seen = old.last_seen) ∧
    (∀ old fresh : PlayerRecord, old.last_seen = none →
      (mergeRecords old fresh).last_seen = fresh.last_seen) ∧
    (∀ (stats : StatsMap) (u : String) (old fresh : PlayerRecord),
      alookup stats u = some old →
      alookup (update_stats stats [(u, fresh)]) u = some (mergeRecords old fresh)) := by
  refine ⟨?_, ?_, ?_, ?_, ?_, ?_, ?_, ?_⟩
  · intro old fresh
    exact ⟨rfl, rfl, rfl, rfl, rfl, rfl, rfl, rfl, rfl, rfl, rfl⟩
  · intro old fresh s t hs ht
    have hfs : (mergeRecords old fresh).first_seen
        = if t.toSecs < s.toSecs then some t else some s := by
      simp [mergeRecords, hs, ht]
    by_cases hlt : t.toSecs < s.toSecs
    · exact ⟨t, by rw [hfs, if_pos hlt], (min_eq_right (le_of_lt hlt)).symm⟩
    · exact ⟨s, by rw [hfs, if_neg hlt], (min_eq_left (le_of_not_lt hlt)).symm⟩
  · intro old fresh hf
    simp [mergeRecords, hf]
  · intro old fresh hf
    rcases hg : fresh.first_seen with _ | t <;> simp [mergeRecords, hf, hg]
  · intro old fresh s t hs ht
    have hls : (mergeRecords old fresh).last_seen
        = if s.toSecs < t.toSecs then some t else some s := by
      simp [mergeRecords, hs, ht]
    by_cases hlt : s.toSecs < t.toSecs
    · exact ⟨t, by rw [hls, if_pos hlt], (max_eq_right (le_of_lt hlt)).symm⟩
    · exact ⟨s, by rw [hls, if_neg hlt], (max_eq_left (le_of_not_lt hlt)).symm⟩
  · intro old fresh hf
    simp [mergeRecords, hf]
  · intro old fresh hf
    rcases hg : fresh.last_seen with _ | t <;> simp [mergeRecords, hf, hg]
  · intro stats u old fresh h
    exact update_stats_existing stats u old fresh h

/-- Witness for C4 at concrete stored and batch records. -/
theorem c4_merge_semantics_witness :
    (mergeRecords c4OldRecord c4FreshRecord).connections
        = c4OldRecord.connections + c4FreshRecord.connections ∧
    (mergeRecords c4OldRecord c4FreshRecord).death_causes
        = c4OldRecord.death_causes ++ c4FreshRecord.death_causes ∧
    (∃ u, (mergeRecords c4OldRecord c4FreshRecord).first_seen = some u ∧
      u.toSecs = Nat.min dtW2.toSecs dtW.toSecs) ∧
    (∃ u, (mergeRecords c4OldRecord c4FreshRecord).last_seen = some u ∧
      u.toSecs = Nat.max dtW2.toSecs dtW.toSecs) ∧
    alookup (update_stats [("Ann", c4OldRecord)] [("Ann", c4FreshRecord)]) "Ann"
        = some (mergeRecords c4OldRecord c4FreshRecord) := by
  obtain ⟨heq, hmin, -, -, hmax, -, -, hstore⟩ := c4_merge_semantics
  exact ⟨(heq c4OldRecord c4FreshRecord).1,
    (heq c4OldRecord c4FreshRecord).2.2.2.2.2.2.1,
    hmin c4OldRecord c4FreshRecord dtW2 dtW rfl rfl,
    hmax c4OldRecord c4FreshRecord dtW2 dtW rfl rfl,
    hstore [("Ann", c4OldRecord)] "Ann" c4OldRecord c4FreshRecord rfl⟩

/-- Claim C5: a Death processed while the current life is open appends
exactly one LifeSegment built from the current-life counters and the
extracted cause, resets all four current-life counters to zero (the two
item/building lists to empty), and sets `current_life_start` to the
death event's timestamp. -/
theorem c5_death_closes_segment (r : PlayerRecord) (pend : Option (Option DateTime))
    (ts : Option DateTime) (cause : String) (t0 : DateTime)
    (h : r.current_life_start = some t0) :
    (applyEvent r pend (LogEvent.death ts cause)).1.lives
        = r.lives ++ [closedSegment r ts cause t0] ∧
    (applyEvent r pend (LogEvent.death ts cause)).1.current_life_zombies_killed = 0 ∧
    (applyEvent r pend (LogEvent.death ts cause)).1.current_life_distance_traveled = 0 ∧
    (applyEvent r pend (LogEvent.death ts cause)).1.current_life_items_crafted = [] ∧
    (applyEvent r pend (LogEvent.death ts cause)).1.current_life_buildings_placed = [] ∧
    (applyEvent r pend (LogEvent.death ts cause)).1.current_life_start = ts :=
  ⟨applyEvent_death_open r pend ts cause t0 h,
   (applyEvent_death_resets r pend ts cause).1,
   (applyEvent_death_resets r pend ts cause).2.1,
   (applyEvent_death_resets r pend ts cause).2.2.1,
   (applyEvent_death_resets r pend ts cause).2.2.2.1,
   (applyEvent_death_resets r pend ts cause).2.2.2.2⟩

/-- Witness for C5 at a concrete open-life record. -/
theorem c5_death_closes_segment_witness :
    (applyEvent c5OpenRecord none (LogEvent.death (some dtW2) "Zombie")).1.lives
        = c5OpenRecord.lives ++ [closedSegment c5OpenRecord (some dtW2) "Zombie" dtW] ∧
    (applyEvent c5OpenRecord none (LogEvent.death (some dtW2) "Zombie")).1.current_life_zombies_killed = 0 ∧
    (applyEvent c5OpenRecord none (LogEvent.death (some dtW2) "Zombie")).1.current_life_distance_traveled = 0 ∧
    (applyEvent c5OpenRecord none (LogEvent.death (some dtW2) "Zombie")).1.current_life_items_crafted = [] ∧
    (applyEvent c5OpenRecord none (LogEvent.death (some dtW2) "Zombie")).1.current_life_buildings_placed = [] ∧
    (applyEvent c5OpenRecord none (LogEvent.death (some dtW2) "Zombie")).1.current_life_start
        = some dtW2 :=
  c5_death_closes_segment c5OpenRecord none (some dtW2) "Zombie" dtW rfl

/-- Claim C6: the disconnect recognizer has no timestamp group, so the
disconnect branch always sees `timestamp = None`: even for a disconnect
line whose text carries a perfectly parseable timestamp, and with a prior
connect holding a pending session start, the disconnect is counted but no
session duration is ever appended (and the pending start is never
cleared). The session-pairing code of `parse_logs` (lines 130-133) is
unreachable. -/
theorem c6_disconnect_never_records_session :
    parseTimestampStr "20-01-25 11:00:00.000" = some ⟨2025, 1, 20, 11, 0, 0⟩ ∧
    alookup (parse_logs c6Lines) "Bob" = some c6BobRecord ∧
    c6BobRecord.connections = 1 ∧
    c6BobRecord.disconnections = 1 ∧
    c6BobRecord.session_times = [] :=
  ⟨by decide, by decide, rfl, rfl, rfl⟩

/-- Claim C7: the very first batch containing a fully-connected line
already produces a record whose `current_life_start` is a raw datetime;
`_save_stats` converts only `first_seen`, `last_seen` and level-up
timestamps, so `json.dump` hits the unconverted datetime and raises
(`save_stats` = `none`): saving parsed stats crashes instead of
round-tripping. -/
theorem c7_save_crashes_on_parsed_stats :
    (alookup (parse_logs [lineConnectBob]) "Bob").map PlayerRecord.current_life_start
        = some (some dtC3) ∧
    save_stats (parse_logs [lineConnectBob]) = none :=
  ⟨by decide, rfl⟩

/-- The concrete rule-order example: rule (a) fires for this record. -/
theorem playstyle_c8Fighter : playstyle c8Fighter = "Combat-Focused Fighter" := by
  have hcond : c8Fighter.zombies_killed > 50 ∧
      (c8Fighter.zombies_killed : ℚ) > (c8Fighter.distance_traveled : ℚ) / 10 := by
    refine ⟨by decide, ?_⟩
    show ((60 : ℕ) : ℚ) > ((200 : ℕ) : ℚ) / 10
    norm_num
  unfold playstyle
  rw [if_pos hcond]

/-- Claim C8: playstyle classification is the fixed ordered decision
list of the spec evaluated first-match-first (proved by refinement
against `playstyleSpec`, the spec's rule list written as data), and in
particular a player with zombies_killed=60, distance=200 and
connections=15 classifies as Combat-Focused Fighter even though the
Regular Player rule would also fire. -/
theorem c8_playstyle_first_match_wins :
    (∀ r : PlayerRecord, playstyle r = playstyleSpec r) ∧
    playstyle c8Fighter = "Combat-Focused Fighter" ∧
    calculate_playstyle_profile [("Spiffo", c8Fighter)]
        = [("Spiffo", "Combat-Focused Fighter")] ∧
    c8Fighter.zombies_killed = 60 ∧
    c8Fighter.distance_traveled = 200 ∧
    c8Fighter.connections = 15 ∧
    c8Fighter.connections > 10 :=
  ⟨playstyle_matches_spec, playstyle_c8Fighter,
   by unfold calculate_playstyle_profile; simp [playstyle_c8Fighter],
   rfl, rfl, rfl, by decide⟩

/-- Claim C9: requesting a category outside the nine fixed leaderboard
categories yields the reported error string (never a successful empty
board), while every valid category over an empty store yields a
non-error rendering of an empty board. -/
theorem c9_unknown_category_reports_error (stats : StatsMap) (now : DateTime)
    (category : String) (h : category ∉ nineCategories) :
    format_leaderboard stats now category 10 = "Unknown leaderboard category: " ++ category ∧
    isErrorOutcome (format_leaderboard stats now category 10) = true ∧
    (∀ c ∈ nineCategories,
      isErrorOutcome (format_leaderboard [] now c 10) = false ∧
      alookup (get_leaderboards [] now) c = some []) := by
  simp only [nineCategories, List.mem_cons, List.not_mem_nil, or_false, not_or] at h
  obtain ⟨h1, h2, h3, h4, h5, h6, h7, h8, h9⟩ := h
  have halo : alookup (get_leaderboards stats now) category = none := by
    simp [get_leaderboards, alookup, Ne.symm h1, Ne.symm h2, Ne.symm h3, Ne.symm h4,
      Ne.symm h5, Ne.symm h6, Ne.symm h7, Ne.symm h8, Ne.symm h9]
  have hfmt : format_leaderboard stats now category 10
      = "Unknown leaderboard category: " ++ category := by
    unfold format_leaderboard
    rw [halo]
  refine ⟨hfmt, ?_, ?_⟩
  · rw [hfmt]
    rfl
  · intro c hc
    simp only [nineCategories, List.mem_cons, List.not_mem_nil, or_false] at hc
    rcases hc with rfl | rfl | rfl | rfl | rfl | rfl | rfl | rfl | rfl <;> exact ⟨rfl, rfl⟩

/-- Witness for C9: an unknown category over the empty store reports the
error, while a valid category over the empty store does not. -/
theorem c9_unknown_category_reports_error_witness :
    format_leaderboard [] dtW "not_a_real_category" 10
        = "Unknown leaderboard category: " ++ "not_a_real_category" ∧
    isErrorOutcome (format_leaderboard [] dtW "not_a_real_category" 10) = true ∧
    isErrorOutcome (format_leaderboard [] dtW "zombies_killed" 10) = false := by
  obtain ⟨ha, hb, hc⟩ :=
    c9_unknown_category_reports_error [] dtW "not_a_real_category" (by decide)
  exact ⟨ha, hb, (hc "zombies_killed" (by decide)).1⟩

/-- Claim C10: a Death processed while no life is open appends no
segment, yet still increments deaths, appends the cause and the
timestamp, and sets `current_life_start` to the death's timestamp; so
when that timestamp resolved, the life clock is now running and a
subsequent Death closes a segment even though no Connect was ever
seen. -/
theorem c10_death_without_open_life (r : PlayerRecord) (pend : Option (Option DateTime))
    (ts : Option DateTime) (cause : String)
    (h : r.current_life_start = none) :
    (applyEvent r pend (LogEvent.death ts cause)).1.lives = r.lives ∧
    (applyEvent r pend (LogEvent.death ts cause)).1.deaths = r.deaths + 1 ∧
    (applyEvent r pend (LogEvent.death ts cause)).1.death_causes
        = r.death_causes ++ [cause] ∧
    (applyEvent r pend (LogEvent.death ts cause)).1.death_timestamps
        = r.death_timestamps ++ [ts] ∧
    (applyEvent r pend (LogEvent.death ts cause)).1.current_life_start = ts ∧
    (∀ t, ts = some t → ∀ (ts2 : Option DateTime) (cause2 : String)
        (pend2 : Option (Option DateTime)),
      (applyEvent (applyEvent r pend (LogEvent.death ts cause)).1 pend2
          (LogEvent.death ts2 cause2)).1.lives
        = r.lives ++ [closedSegment (applyEvent r pend (LogEvent.death ts cause)).1
            ts2 cause2 t]) := by
  refine ⟨applyEvent_death_closed r pend ts cause h,
    (applyEvent_death_counters r pend ts cause).1,
    (applyEvent_death_counters r pend ts cause).2.1,
    (applyEvent_death_counters r pend ts cause).2.2,
    (applyEvent_death_resets r pend ts cause).2.2.2.2, ?_⟩
  intro t hts ts2 cause2 pend2
  have hopen : (applyEvent r pend (LogEvent.death ts cause)).1.current_life_start = some t := by
    rw [(applyEvent_death_resets r pend ts cause).2.2.2.2, hts]
  rw [applyEvent_death_open (applyEvent r pend (LogEvent.death ts cause)).1 pend2 ts2 cause2 t
    hopen, applyEvent_death_closed r pend ts cause h]

/-- Witness for C10 at a concrete record with no open life: the first
death appends nothing, the second closes a segment. -/
theorem c10_death_without_open_life_witness :
    (applyEvent c10Record none (LogEvent.death (some dtW) "Fire")).1.lives = c10Record.lives ∧
    (applyEvent c10Record none (LogEvent.death (some dtW) "Fire")).1.deaths
        = c10Record.deaths + 1 ∧
    (applyEvent c10Record none (LogEvent.death (some dtW) "Fire")).1.death_causes
        = c10Record.death_causes ++ ["Fire"] ∧
    (applyEvent c10Record none (LogEvent.death (some dtW) "Fire")).1.current_life_start
        = some dtW ∧
    (applyEvent (applyEvent c10Record none (LogEvent.death (some dtW) "Fire")).1 none
        (LogEvent.death (some dtW2) "Zombie")).1.lives
      = c10Record.lives ++ [closedSegment
          (applyEvent c10Record none (LogEvent.death (some dtW) "Fire")).1
          (some dtW2) "Zombie" dtW] := by
  obtain ⟨ha, hb, hc, -, he, hf⟩ :=
    c10_death_without_open_life c10Record none (some dtW) "Fire" rfl
  exact ⟨ha, hb, hc, he, hf dtW rfl (some dtW2) "Zombie" none⟩
